import Mathlib

/-!
Verification of the nmon summary builder (src/nmon_summary.py).

The Python source is shallowly embedded below.  Python floats are modelled as
exact rationals; a pandas NaN cell is modelled as `none : Option Rat`.  Python
exceptions are modelled with `Except Unit`; functions that contain a local
try/except are total and map the error case to the zero tuple, exactly as the
source does.  Lines read from a file are modelled as the `List String` handed
to `process_nmon_file` (Python `readlines`, each possibly carrying a trailing
newline, which the embedded string helpers treat exactly like the source).
-/

set_option autoImplicit false

attribute [local semireducible] Rat.mul Rat.add Rat.sub Rat.inv Rat.ofScientific

deriving instance DecidableEq for Except

namespace NmonSummary

/-! ### Python string primitives

Character-list implementations of the Python string operations used by the
source: `str.split(sep)`, `str.strip()`, `str.strip(chars)`, `str.startswith`,
`in` (substring test), `str.endswith`.  All are structural recursions so that
every theorem below can be settled by kernel evaluation. -/

/-- Whitespace stripped by Python `str.strip()` (ASCII subset). -/
def pyIsSpace (c : Char) : Bool :=
  c == ' ' || c == '\t' || c == '\n' || c == '\r' || c == Char.ofNat 11 || c == Char.ofNat 12

/-- Drop characters satisfying `p` from both ends of a character list. -/
def stripListWith (p : Char → Bool) (l : List Char) : List Char :=
  ((l.dropWhile p).reverse.dropWhile p).reverse

/-- Python `str.strip()`. -/
def pyStrip (s : String) : String :=
  String.mk (stripListWith pyIsSpace s.data)

/-- Python `str.strip(chr(34))`, i.e. stripping double quotes from both ends. -/
def stripQuotes (s : String) : String :=
  String.mk (stripListWith (fun c => c == Char.ofNat 34) s.data)

/-- Helper for `pySplit`: accumulates the current field reversed. -/
def splitChAux (c : Char) : List Char → List Char → List (List Char)
  | [], acc => [acc.reverse]
  | x :: xs, acc =>
    if x == c then acc.reverse :: splitChAux c xs [] else splitChAux c xs (x :: acc)

/-- Python `str.split(c)` for a one-character separator. -/
def pySplit (c : Char) (s : String) : List String :=
  (splitChAux c s.data []).map String.mk

/-- Boolean list-prefix test. -/
def isPrefixCh : List Char → List Char → Bool
  | [], _ => true
  | _ :: _, [] => false
  | p :: ps, x :: xs => p == x && isPrefixCh ps xs

/-- Python `str.startswith(pat)`. -/
def pyStartsWith (pat s : String) : Bool :=
  isPrefixCh pat.data s.data

/-- Substring test on character lists. -/
def containsCh (pat : List Char) : List Char → Bool
  | [] => pat.isEmpty
  | l@(_ :: xs) => isPrefixCh pat l || containsCh pat xs

/-- Python `pat in s` (substring containment). -/
def containsS (pat s : String) : Bool :=
  containsCh pat.data s.data

/-- Python `str.endswith(pat)`. -/
def pyEndsWith (pat s : String) : Bool :=
  isPrefixCh pat.data.reverse s.data.reverse

/-- Python `s.split(c)[-1]`: `split` never returns an empty list, so the
default of `getLastD` is unreachable. -/
def lastSeg (c : Char) (s : String) : String :=
  (pySplit c s).getLastD ""

/-- Decimal value of a digit list. -/
def digitsVal (l : List Char) : Nat :=
  l.foldl (fun a c => a * 10 + (c.toNat - 48)) 0

/-- Python `float(s)` on the plain decimal literals that occur in nmon data:
optional surrounding whitespace, optional sign, digits with an optional
decimal point (at least one digit).  Anything else raises, modelled as
`Except.error ()`.  (Python additionally accepts exponent / inf / nan forms,
which never occur in nmon numeric fields and are not modelled.) -/
def parseFloat (s : String) : Except Unit ℚ :=
  let t := stripListWith pyIsSpace s.data
  let sgnRest : ℚ × List Char :=
    match t with
    | c :: rest => if c == '-' then (-1, rest) else if c == '+' then (1, rest) else (1, t)
    | [] => (1, t)
  let sgn := sgnRest.1
  let t1 := sgnRest.2
  let ip := t1.takeWhile Char.isDigit
  let r1 := t1.dropWhile Char.isDigit
  match r1 with
  | [] => if ip.isEmpty then .error () else .ok (sgn * (digitsVal ip : ℚ))
  | c :: rest =>
    if c == '.' then
      let fp := rest.takeWhile Char.isDigit
      let r2 := rest.dropWhile Char.isDigit
      if r2.isEmpty && !(ip.isEmpty && fp.isEmpty) then
        .ok (sgn * ((digitsVal ip * 10 ^ fp.length + digitsVal fp : Nat) : ℚ) / ((10 : ℚ) ^ fp.length))
      else .error ()
    else .error ()

/-- Turn an `Except Unit` into an `Option`. -/
def exOpt {α : Type} : Except Unit α → Option α
  | .ok a => some a
  | .error _ => none

/-- Python `float(s)` as an `Option`. -/
def pyFloat? (s : String) : Option ℚ := exOpt (parseFloat s)

/-! ### Data model -/

/-- OS flavor of one input file; default Linux, flipped by the AIX signature. -/
inductive OsFlavor
  | AIX
  | Linux
deriving DecidableEq

/-- Fields collected by `parse_system_info` (the `system_info` dict); a field
never written stays `none` and is defaulted to "N/A" when read. -/
structure SystemInfo where
  date : Option String
  lparName : Option String
  model : Option String
  serial : Option String
  procType : Option String
deriving DecidableEq

/-- The dict starts out empty. -/
def emptySystemInfo : SystemInfo := ⟨none, none, none, none, none⟩

/-- The 12-value tuple returned by `calculate_aix_metrics` and
`calculate_linux_metrics`, in the exact order of the source return statement:
(count, VP, E, vp_e_ratio, poolCPU, poolIdle, W, cap, total, min_cpu, avg,
max_cpu).  The Python `count` is an int, rendered here in ℚ. -/
structure MetricTuple where
  count : ℚ
  VP : ℚ
  E : ℚ
  vpE : ℚ
  poolCPU : ℚ
  poolIdle : ℚ
  W : ℚ
  cap : ℚ
  total : ℚ
  minCpu : ℚ
  avg : ℚ
  maxCpu : ℚ
deriving DecidableEq

/-- The 12-tuple of zeros returned by both LPAR reducers on any exception. -/
def zeroMetrics : MetricTuple := ⟨0, 0, 0, 0, 0, 0, 0, 0, 0, 0, 0, 0⟩

/-- The 5-value tuple returned by `calculate_memory_metrics`:
(count, min GB, avg GB, max GB, 95th-percentile GB). -/
structure MemTuple where
  count : ℚ
  minGB : ℚ
  avgGB : ℚ
  maxGB : ℚ
  p95GB : ℚ
deriving DecidableEq

/-- The zero tuple returned by the memory reducer on any exception. -/
def zeroMem : MemTuple := ⟨0, 0, 0, 0, 0⟩

/-- The tuple returned by `process_nmon_file` on success, in source order:
(date, lpar_name, machine_model, machine_serial, processor_type) + metrics +
(percentile_cpu, rq) + memory_metrics.  The Python `rq` is `np.nan` when no
PROC data was seen; NaN is modelled as `none`. -/
structure FileResult where
  date : String
  lparName : String
  model : String
  serial : String
  procType : String
  metrics : MetricTuple
  percentileCpu : ℚ
  rq : Option ℚ
  mem : MemTuple
deriving DecidableEq

/-! ### pandas DataFrame column model

`pd.DataFrame(list_of_rows)` has one integer-labelled column per index below
the maximum row length; a row shorter than that is padded with NaN.  Accessing
a column at or beyond the maximum row length raises (KeyError / IndexError),
modelled as `Except.error ()`.  A NaN cell is `none`. -/

/-- Number of columns of `pd.DataFrame(rows)`: the maximum row length. -/
def maxLen (rows : List (List String)) : Nat :=
  rows.foldr (fun r m => max r.length m) 0

/-- Column `j` of `pd.DataFrame(rows)` (`data[j]` / `df.iloc[:, j]`):
raises if the column does not exist, otherwise one cell per row, `none`
where the row is too short. -/
def colE (rows : List (List String)) (j : Nat) : Except Unit (List (Option String)) :=
  if j < maxLen rows then .ok (rows.map (fun r => r.get? j)) else .error ()

/-- pandas `.astype(float)`: NaN stays NaN, every string cell must parse as a
float, otherwise the conversion raises. -/
def astypeFloat : List (Option String) → Except Unit (List (Option ℚ))
  | [] => .ok []
  | none :: rest => (astypeFloat rest).map (fun v => none :: v)
  | some s :: rest =>
    match parseFloat s with
    | .error e => .error e
    | .ok q => (astypeFloat rest).map (fun v => some q :: v)

/-- pandas elementwise subtraction of two aligned Series; NaN propagates. -/
def zipSub (a b : List (Option ℚ)) : List (Option ℚ) :=
  List.zipWith
    (fun x y =>
      match x, y with
      | some p, some q => some (p - q)
      | _, _ => none) a b

/-- The non-NaN values of a Series, in order. -/
def presentVals (cells : List (Option ℚ)) : List ℚ := cells.filterMap id

/-- Sum of a list of rationals. -/
def listSum (l : List ℚ) : ℚ := l.foldl (fun a b => a + b) 0

/-- Minimum of a list of rationals (0 on the empty list; every use below is
on a list with at least one element, because a materialized DataFrame column
always contains the cell of a row of maximal length). -/
def listMin : List ℚ → ℚ
  | [] => 0
  | x :: xs => xs.foldl min x

/-- Maximum of a list of rationals (same remark as `listMin`). -/
def listMax : List ℚ → ℚ
  | [] => 0
  | x :: xs => xs.foldl max x

/-- pandas `Series.sum()` (skipna): sum of the non-NaN values, 0 if none. -/
def nansum (cells : List (Option ℚ)) : ℚ := listSum (presentVals cells)

/-- pandas `Series.min()` (skipna). -/
def nanmin (cells : List (Option ℚ)) : ℚ := listMin (presentVals cells)

/-- pandas `Series.max()` (skipna). -/
def nanmax (cells : List (Option ℚ)) : ℚ := listMax (presentVals cells)

/-- pandas `Series.mean()` (skipna): sum over count of the non-NaN values. -/
def nanmean (cells : List (Option ℚ)) : ℚ :=
  let p := presentVals cells
  if p.length = 0 then 0 else listSum p / (p.length : ℚ)

/-- Ascending sort used by the percentile computations. -/
def sortQ (xs : List ℚ) : List ℚ := List.insertionSort (fun a b => a ≤ b) xs

/-- pandas `Series.quantile(0.95)` with the default linear interpolation:
sort ascending, take rank r = 0.95 * (n - 1), and interpolate between the
values at position floor(r) and the next position by the fractional part
(the next position collapses onto floor(r) when r is integral). -/
def quantile95 (xs : List ℚ) : ℚ :=
  let s := sortQ xs
  let n := s.length
  if n = 0 then 0
  else
    let r : ℚ := 95 * ((n : ℚ) - 1) / 100
    let i : Nat := (⌊r⌋).toNat
    let lo := s.getD i 0
    lo + (r - (i : ℚ)) * (s.getD (i + 1) lo - lo)

/-- pandas `Series.quantile(0.95)` on a Series with NaNs: the NaNs are
dropped first. -/
def nanquantile95 (cells : List (Option ℚ)) : ℚ := quantile95 (presentVals cells)

/-- Modelled from the spec: the standard linear-interpolation 95th-percentile
definition as the spec words it — sort the samples, take rank
r = 0.95 * (n - 1), pick indices i = floor(r) and j = ceil(r), and
interpolate between the values at i and j by the fractional offset.  Used
only to compare against `quantile95` above. -/
def specQuantile95 (xs : List ℚ) : ℚ :=
  let s := sortQ xs
  let n := s.length
  if n = 0 then 0
  else
    let r : ℚ := 95 * ((n : ℚ) - 1) / 100
    let i : Nat := (⌊r⌋).toNat
    let j : Nat := (⌈r⌉).toNat
    s.getD i 0 + (r - (i : ℚ)) * (s.getD j 0 - s.getD i 0)

/-! ### Header extractor (`parse_system_info`) -/

/-- Embedding of `parse_system_info`: updates the `system_info` dict in the
source; the unguarded list indexing there can raise IndexError, modelled as
`Except.error ()`. -/
def parse_system_info (line : String) (si : SystemInfo) : Except Unit SystemInfo :=
  if containsS "AAA,date" line then
    match (pySplit ',' line).get? 2 with
    | none => .error ()
    | some f => .ok { si with date := some f }
  else if containsS "lparname" line then
    match (pySplit ',' line).get? 3 with
    | none => .error ()
    | some f => .ok { si with lparName := some (pyStrip f) }
  else if containsS "System Model:" line then
    match (pySplit ',' (stripQuotes (pyStrip (lastSeg ':' line)))).get? 1 with
    | none => .error ()
    | some f => .ok { si with model := some f }
  else if containsS "Machine Serial Number:" line then
    .ok { si with serial := some (stripQuotes (pyStrip (lastSeg ':' line))) }
  else if containsS "Processor Type:" line then
    match (pySplit '_' (stripQuotes (pyStrip (lastSeg ':' line)))).get? 1 with
    | none => .error ()
    | some f => .ok { si with procType := some f }
  else .ok si

/-- Characterization of the lines on which `parse_system_info` raises,
following the same marker priority chain as the source. -/
def malformedHeader (line : String) : Bool :=
  if containsS "AAA,date" line then decide ((pySplit ',' line).length ≤ 2)
  else if containsS "lparname" line then decide ((pySplit ',' line).length ≤ 3)
  else if containsS "System Model:" line then
    decide ((pySplit ',' (stripQuotes (pyStrip (lastSeg ':' line)))).length ≤ 1)
  else if containsS "Machine Serial Number:" line then false
  else if containsS "Processor Type:" line then
    decide ((pySplit '_' (stripQuotes (pyStrip (lastSeg ':' line)))).length ≤ 1)
  else false

/-- True when a line matches none of the five header markers. -/
def noMarker (line : String) : Bool :=
  !(containsS "AAA,date" line || containsS "lparname" line ||
    containsS "System Model:" line || containsS "Machine Serial Number:" line ||
    containsS "Processor Type:" line)

/-! ### OS-specific metric reducers -/

/-- The body of the `try` block of `calculate_aix_metrics`, with the column
reads in source order (2, 3, 6, 5, 8, 7, 12). -/
def aixMetricsE (rows : List (List String)) : Except Unit MetricTuple :=
  (colE rows 2).bind fun c2r =>
  (astypeFloat c2r).bind fun c2 =>
  (colE rows 3).bind fun c3r =>
  (astypeFloat c3r).bind fun c3 =>
  (colE rows 6).bind fun c6r =>
  (astypeFloat c6r).bind fun c6 =>
  (colE rows 5).bind fun c5r =>
  (astypeFloat c5r).bind fun c5 =>
  (colE rows 8).bind fun c8r =>
  (astypeFloat c8r).bind fun c8 =>
  (colE rows 7).bind fun c7r =>
  (astypeFloat c7r).bind fun c7 =>
  (colE rows 12).bind fun c12r =>
  (astypeFloat c12r).bind fun c12 =>
  let count := rows.length
  let total := nansum c2
  let max_cpu := nanmax c2
  let min_cpu := nanmin c2
  let VP := nanmin c3
  let E := nanmin c6
  let avg := if 0 < count then total / (count : ℚ) else 0
  let vpE := if 0 < E then VP / E * 100 else 0
  .ok ⟨(count : ℚ), VP, E, vpE, nanmin c5, nanmin c8, nanmin c7, nanmin c12,
       total, min_cpu, avg, max_cpu⟩

/-- Embedding of `calculate_aix_metrics`: the local try/except turns any
exception into the 12-tuple of zeros. -/
def calculate_aix_metrics (rows : List (List String)) : MetricTuple :=
  match aixMetricsE rows with
  | .ok t => t
  | .error _ => zeroMetrics

/-- The body of the `try` block of `calculate_linux_metrics`, with the column
reads in source order (2, 13, 10, 8, 21, 16, 4); column 8 is divided by 100
per sample before summation. -/
def linuxMetricsE (rows : List (List String)) : Except Unit MetricTuple :=
  (colE rows 2).bind fun c2r =>
  (astypeFloat c2r).bind fun c2 =>
  (colE rows 13).bind fun c13r =>
  (astypeFloat c13r).bind fun c13 =>
  (colE rows 10).bind fun c10r =>
  (astypeFloat c10r).bind fun c10 =>
  (colE rows 8).bind fun c8r =>
  (astypeFloat c8r).bind fun c8 =>
  (colE rows 21).bind fun c21r =>
  (astypeFloat c21r).bind fun c21 =>
  (colE rows 16).bind fun c16r =>
  (astypeFloat c16r).bind fun c16 =>
  (colE rows 4).bind fun c4r =>
  (astypeFloat c4r).bind fun c4 =>
  let count := rows.length
  let total := nansum c2
  let max_cpu := nanmax c2
  let min_cpu := nanmin c2
  let VP := nansum c13
  let E := nansum c10
  let avg := if 0 < count then total / (count : ℚ) else 0
  let vpE := if 0 < E then VP / E * 100 else 0
  .ok ⟨(count : ℚ), VP, E, vpE, nansum (c8.map (Option.map (fun q => q / 100))),
       nansum c21, nansum c16, nansum c4, total, min_cpu, avg, max_cpu⟩

/-- Embedding of `calculate_linux_metrics`: zero tuple on any exception. -/
def calculate_linux_metrics (rows : List (List String)) : MetricTuple :=
  match linuxMetricsE rows with
  | .ok t => t
  | .error _ => zeroMetrics

/-- The pair of MEM columns whose difference is the used memory:
(6, 4) for AIX, (2, 7) for Linux. -/
def memCols (ot : OsFlavor) : Nat × Nat :=
  if ot = OsFlavor.AIX then (6, 4) else (2, 7)

/-- The body of the `try` block of `calculate_memory_metrics`: used memory is
column 6 minus column 4 for AIX and column 2 minus column 7 for Linux, then
min / mean / max / 95th percentile of used, each divided by 1024. -/
def memMetricsE (rows : List (List String)) (ot : OsFlavor) : Except Unit MemTuple :=
  let ij : Nat × Nat := memCols ot
  (colE rows ij.1).bind fun cir =>
  (astypeFloat cir).bind fun a =>
  (colE rows ij.2).bind fun cjr =>
  (astypeFloat cjr).bind fun b =>
  let used := zipSub a b
  .ok ⟨(rows.length : ℚ), nanmin used / 1024, nanmean used / 1024,
       nanmax used / 1024, nanquantile95 used / 1024⟩

/-- Embedding of `calculate_memory_metrics`: zero tuple on any exception. -/
def calculate_memory_metrics (rows : List (List String)) (ot : OsFlavor) : MemTuple :=
  match memMetricsE rows ot with
  | .ok t => t
  | .error _ => zeroMem

/-! ### Record classifier and file pipeline (`process_nmon_file`) -/

/-- The mutable locals of the scanning loop in `process_nmon_file`. -/
structure ScanState where
  osType : OsFlavor
  lparData : List (List String)
  procData : List (List String)
  memData : List (List String)
  systemInfo : SystemInfo
deriving DecidableEq

/-- Loop state before the first line: Linux, empty collections, empty dict. -/
def initState : ScanState := ⟨OsFlavor.Linux, [], [], [], emptySystemInfo⟩

/-- A line starting with the AIX signature prefix AAA,AIX. -/
def isAixSig (l : String) : Bool := pyStartsWith "AAA,AIX" l

/-- One iteration of the classification loop, mirroring the elif chain:
AIX signature, LPAR (kept when at least 14 fields), PROC (3), MEM (8),
otherwise the header extractor, whose IndexError propagates. -/
def scanLine (st : ScanState) (l : String) : Except Unit ScanState :=
  if isAixSig l then .ok { st with osType := OsFlavor.AIX }
  else if pyStartsWith "LPAR,T" l then
    .ok (if 14 ≤ (pySplit ',' (pyStrip l)).length then
          { st with lparData := st.lparData ++ [pySplit ',' (pyStrip l)] }
        else st)
  else if pyStartsWith "PROC,T" l then
    .ok (if 3 ≤ (pySplit ',' (pyStrip l)).length then
          { st with procData := st.procData ++ [pySplit ',' (pyStrip l)] }
        else st)
  else if pyStartsWith "MEM,T" l then
    .ok (if 8 ≤ (pySplit ',' (pyStrip l)).length then
          { st with memData := st.memData ++ [pySplit ',' (pyStrip l)] }
        else st)
  else
    match parse_system_info l st.systemInfo with
    | .error e => .error e
    | .ok si => .ok { st with systemInfo := si }

/-- The classification loop over all lines of the file. -/
def foldScan (st : ScanState) : List String → Except Unit ScanState
  | [] => .ok st
  | l :: ls =>
    match scanLine st l with
    | .error e => .error e
    | .ok st2 => foldScan st2 ls

/-- The classification loop started from the initial state. -/
def scanAll (lines : List String) : Except Unit ScanState := foldScan initState lines

/-- What one line contributes to `lpar_data`, independent of loop state;
mirrors the elif chain of `scanLine`. -/
def lparFilter (l : String) : Option (List String) :=
  if isAixSig l then none
  else if pyStartsWith "LPAR,T" l then
    if 14 ≤ (pySplit ',' (pyStrip l)).length then some (pySplit ',' (pyStrip l)) else none
  else none

/-- What one line contributes to `proc_data`. -/
def procFilter (l : String) : Option (List String) :=
  if isAixSig l then none
  else if pyStartsWith "LPAR,T" l then none
  else if pyStartsWith "PROC,T" l then
    if 3 ≤ (pySplit ',' (pyStrip l)).length then some (pySplit ',' (pyStrip l)) else none
  else none

/-- What one line contributes to `mem_data`. -/
def memFilter (l : String) : Option (List String) :=
  if isAixSig l then none
  else if pyStartsWith "LPAR,T" l then none
  else if pyStartsWith "PROC,T" l then none
  else if pyStartsWith "MEM,T" l then
    if 8 ≤ (pySplit ',' (pyStrip l)).length then some (pySplit ',' (pyStrip l)) else none
  else none

/-- The full LPAR record collection of a file. -/
def collectLpar (lines : List String) : List (List String) := lines.filterMap lparFilter

/-- The full PROC record collection of a file. -/
def collectProc (lines : List String) : List (List String) := lines.filterMap procFilter

/-- The full MEM record collection of a file. -/
def collectMem (lines : List String) : List (List String) := lines.filterMap memFilter

/-- The OS flavor the scan ends with. -/
def osFlavorOf (lines : List String) : OsFlavor :=
  if lines.any isAixSig then OsFlavor.AIX else OsFlavor.Linux

/-- The run-queue computation of `process_nmon_file`: `np.nan` (modelled
`none`) when `proc_data` is empty, otherwise the 95th percentile of PROC
column 2 as floats, which can raise on a non-numeric cell. -/
def rqEOf (st : ScanState) : Except Unit (Option ℚ) :=
  if st.procData = [] then .ok none
  else
    (colE st.procData 2).bind fun c =>
    (astypeFloat c).map fun v => some (nanquantile95 v)

/-- The CPU 95th-percentile computation of `process_nmon_file`: LPAR column
2 for AIX, 10 for Linux, as floats; can raise on a non-numeric cell. -/
def cpuEOf (st : ScanState) : Except Unit ℚ :=
  (colE st.lparData (if st.osType = OsFlavor.AIX then 2 else 10)).bind fun c =>
  (astypeFloat c).map fun v => nanquantile95 v

/-- Assembly of the returned tuple from the final loop state. -/
def mkResult (st : ScanState) (rq : Option ℚ) (pc : ℚ) : FileResult :=
  { date := st.systemInfo.date.getD "N/A"
    lparName := st.systemInfo.lparName.getD "N/A"
    model := st.systemInfo.model.getD "N/A"
    serial := st.systemInfo.serial.getD "N/A"
    procType := st.systemInfo.procType.getD "N/A"
    metrics :=
      if st.osType = OsFlavor.AIX then calculate_aix_metrics st.lparData
      else calculate_linux_metrics st.lparData
    percentileCpu := pc
    rq := rq
    mem := calculate_memory_metrics st.memData st.osType }

/-- Everything `process_nmon_file` does after the scan: return `None` when
`lpar_data` is empty, otherwise compute the metrics (reducer-local errors
already absorbed), the run-queue and CPU percentiles (whose exceptions
propagate), and build the result tuple. -/
def buildResult (st : ScanState) : Except Unit FileResult :=
  if st.lparData = [] then .error ()
  else
    match rqEOf st, cpuEOf st with
    | .ok rq, .ok pc => .ok (mkResult st rq pc)
    | _, _ => .error ()

/-- The body of `process_nmon_file` up to its outer try/except. -/
def process_nmon_fileE (lines : List String) : Except Unit FileResult :=
  (scanAll lines).bind buildResult

/-- Embedding of `process_nmon_file` on the lines of one file: `None` both for
the explicit no-LPAR-data return and for any exception reaching the outer
try/except. -/
def process_nmon_file (lines : List String) : Option FileResult :=
  exOpt (process_nmon_fileE lines)

/-! ### Batch driver (`main`) -/

/-- The column-name list of `main`, verbatim from the source (including the
spelling of entry 21). -/
def columns : List String :=
  ["nmonfile", "Date", "LPAR Name", "System Model", "Machine Serial Number",
   "Processor Type", "Snapshots", "VP", "Entitled CPU", "VP:E", "Pool CPU",
   "Pool Idle", "Weight", "Capped", "Total CPU", "Min CPU", "Avg CPU",
   "Max CPU", "95 Percentile CPU", "Run Queue 95", "Count Mem",
   "Mim MEM Used", "Avg MEM Used", "Max MEM Used", "95 percentile GB"]

/-- Modelled from the spec: the exact column list the spec prescribes, with
entry 21 spelled "Min MEM Used".  Used only to compare against `columns`. -/
def specColumns : List String :=
  ["nmonfile", "Date", "LPAR Name", "System Model", "Machine Serial Number",
   "Processor Type", "Snapshots", "VP", "Entitled CPU", "VP:E", "Pool CPU",
   "Pool Idle", "Weight", "Capped", "Total CPU", "Min CPU", "Avg CPU",
   "Max CPU", "95 Percentile CPU", "Run Queue 95", "Count Mem",
   "Min MEM Used", "Avg MEM Used", "Max MEM Used", "95 percentile GB"]

/-- One cell of the output table: a string, a number, or NaN. -/
inductive Cell
  | str (s : String)
  | num (q : ℚ)
  | nan
deriving DecidableEq

/-- Render an optional number (NaN model) as a cell. -/
def cellOpt : Option ℚ → Cell
  | some q => .num q
  | none => .nan

/-- One row of the output table: `(filename,) + result`, flattened in the
exact order of the source tuples. -/
def rowOf (name : String) (r : FileResult) : List Cell :=
  [.str name, .str r.date, .str r.lparName, .str r.model, .str r.serial,
   .str r.procType, .num r.metrics.count, .num r.metrics.VP, .num r.metrics.E,
   .num r.metrics.vpE, .num r.metrics.poolCPU, .num r.metrics.poolIdle,
   .num r.metrics.W, .num r.metrics.cap, .num r.metrics.total,
   .num r.metrics.minCpu, .num r.metrics.avg, .num r.metrics.maxCpu,
   .num r.percentileCpu, cellOpt r.rq, .num r.mem.count, .num r.mem.minGB,
   .num r.mem.avgGB, .num r.mem.maxGB, .num r.mem.p95GB]

/-- What one directory entry (filename, file lines) contributes to
`all_results`: nothing unless the name ends in `.nmon` and the pipeline
returns a result. -/
def rowSelect (f : String × List String) : Option (String × FileResult) :=
  if pyEndsWith ".nmon" f.1 then (process_nmon_file f.2).map (fun r => (f.1, r))
  else none

/-- The accumulation loop of `main` over the directory listing. -/
def allResultsAux (acc : List (String × FileResult)) :
    List (String × List String) → List (String × FileResult)
  | [] => acc
  | f :: fs =>
    allResultsAux
      (if pyEndsWith ".nmon" f.1 then
        match process_nmon_file f.2 with
        | some r => acc ++ [(f.1, r)]
        | none => acc
      else acc) fs

/-- Embedding of the `all_results` list of `main`, the rows of the table. -/
def all_results (files : List (String × List String)) : List (String × FileResult) :=
  allResultsAux [] files

/-! ### Spec-side definitions used for refinement comparisons -/

/-- Modelled from the spec: the per-sample used-memory value as the spec words
it — the difference of the two OS-dependent MEM columns, defined only when
both cells exist and parse as floats. -/
def specUsed (ot : OsFlavor) (r : List String) : Option ℚ :=
  let ij := memCols ot
  match (r.get? ij.1).bind pyFloat?, (r.get? ij.2).bind pyFloat? with
  | some a, some b => some (a - b)
  | _, _ => none

/-- Modelled from the spec: the used-memory series of a MEM collection,
defined only when every sample is. -/
def specUsedList : List (List String) → OsFlavor → Option (List ℚ)
  | [], _ => some []
  | r :: rs, ot =>
    match specUsed ot r, specUsedList rs ot with
    | some u, some us => some (u :: us)
    | _, _ => none

/-! ### Concrete inputs used by witnesses and counterexamples -/

/-- A well-formed LPAR line with exactly 14 fields (CPU% field is 10). -/
def demoLparLine : String := "LPAR,T0001,10,1,0.5,0.2,1.0,128,0.1,0,0,0,0,1"

/-- The fields of `demoLparLine`. -/
def demoLparParts : List String :=
  ["LPAR", "T0001", "10", "1", "0.5", "0.2", "1.0", "128", "0.1", "0", "0", "0", "0", "1"]

/-- A file whose PROC run-queue field is not numeric. -/
def demoProcBad : List String := [demoLparLine, "PROC,T0001,abc"]

/-- The scan state `demoProcBad` ends in. -/
def demoProcBadState : ScanState :=
  ⟨OsFlavor.Linux, [demoLparParts], [["PROC", "T0001", "abc"]], [], emptySystemInfo⟩

/-- Three MEM samples whose AIX used memory (col 6 minus col 4) is 2048. -/
def demoMemRows : List (List String) :=
  [["MEM", "T0001", "0", "0", "1000", "0", "3048", "0"],
   ["MEM", "T0002", "0", "0", "1000", "0", "3048", "0"],
   ["MEM", "T0003", "0", "0", "1000", "0", "3048", "0"]]

/-- An all-numeric 14-field row (shorter than the 22 columns the Linux
reducer reads). -/
def demoNumRow14 : List String :=
  ["1", "2", "3", "4", "5", "6", "7", "8", "9", "10", "11", "12", "13", "14"]

/-! ### Helper lemmas: Except plumbing -/

@[simp] lemma ok_bind {α β : Type} (a : α) (f : α → Except Unit β) :
    (Except.ok a : Except Unit α).bind f = f a := rfl

@[simp] lemma err_bind {α β : Type} (f : α → Except Unit β) :
    (Except.error () : Except Unit α).bind f = .error () := rfl

@[simp] lemma ok_map {α β : Type} (a : α) (f : α → β) :
    (Except.ok a : Except Unit α).map f = .ok (f a) := rfl

@[simp] lemma err_map {α β : Type} (f : α → β) :
    (Except.error () : Except Unit α).map f = .error () := rfl

@[simp] lemma exOpt_ok {α : Type} (a : α) : exOpt (Except.ok a : Except Unit α) = some a := rfl

@[simp] lemma exOpt_err {α : Type} : exOpt (Except.error () : Except Unit α) = none := rfl

lemma exOpt_eq_some {α : Type} {x : Except Unit α} {r : α} :
    exOpt x = some r ↔ x = .ok r := by
  cases x with
  | ok a => simp [exOpt]
  | error e => simp [exOpt]

/-! ### Helper lemmas: the classification loop -/

lemma scanLine_ok_spec {st : ScanState} {l : String} {st2 : ScanState}
    (h : scanLine st l = .ok st2) :
    st2.lparData = st.lparData ++ (lparFilter l).toList ∧
    st2.procData = st.procData ++ (procFilter l).toList ∧
    st2.memData = st.memData ++ (memFilter l).toList ∧
    st2.osType = (if isAixSig l then OsFlavor.AIX else st.osType) := by
  unfold scanLine at h
  by_cases c1 : isAixSig l
  · simp only [c1, if_true, Except.ok.injEq] at h
    subst h
    simp [lparFilter, procFilter, memFilter, c1]
  · simp only [c1, if_false, Bool.false_eq_true] at h
    by_cases c2 : pyStartsWith "LPAR,T" l
    · simp only [c2, if_true] at h
      by_cases d2 : 14 ≤ (pySplit ',' (pyStrip l)).length
      · simp only [d2, if_pos, Except.ok.injEq] at h
        subst h
        simp [lparFilter, procFilter, memFilter, c1, c2, d2]
      · simp only [d2, if_neg, Except.ok.injEq, not_false_iff] at h
        subst h
        simp [lparFilter, procFilter, memFilter, c1, c2, d2]
    · simp only [c2, if_false, Bool.false_eq_true] at h
      by_cases c3 : pyStartsWith "PROC,T" l
      · simp only [c3, if_true] at h
        by_cases d3 : 3 ≤ (pySplit ',' (pyStrip l)).length
        · simp only [d3, if_pos, Except.ok.injEq] at h
          subst h
          simp [lparFilter, procFilter, memFilter, c1, c2, c3, d3]
        · simp only [d3, if_neg, Except.ok.injEq, not_false_iff] at h
          subst h
          simp [lparFilter, procFilter, memFilter, c1, c2, c3, d3]
      · simp only [c3, if_false, Bool.false_eq_true] at h
        by_cases c4 : pyStartsWith "MEM,T" l
        · simp only [c4, if_true] at h
          by_cases d4 : 8 ≤ (pySplit ',' (pyStrip l)).length
          · simp only [d4, if_pos, Except.ok.injEq] at h
            subst h
            simp [lparFilter, procFilter, memFilter, c1, c2, c3, c4, d4]
          · simp only [d4, if_neg, Except.ok.injEq, not_false_iff] at h
            subst h
            simp [lparFilter, procFilter, memFilter, c1, c2, c3, c4, d4]
        · simp only [c4, if_false, Bool.false_eq_true] at h
          cases hp : parse_system_info l st.systemInfo with
          | error e => rw [hp] at h; cases h
          | ok si =>
            rw [hp] at h
            cases h
            simp [lparFilter, procFilter, memFilter, c1, c2, c3, c4]

lemma foldScan_ok_spec :
    ∀ (lines : List String) (st st' : ScanState), foldScan st lines = .ok st' →
      st'.lparData = st.lparData ++ lines.filterMap lparFilter ∧
      st'.procData = st.procData ++ lines.filterMap procFilter ∧
      st'.memData = st.memData ++ lines.filterMap memFilter ∧
      st'.osType = (if lines.any isAixSig then OsFlavor.AIX else st.osType) := by
  intro lines
  induction lines with
  | nil =>
    intro st st' h
    unfold foldScan at h
    cases h
    simp
  | cons l ls ih =>
    intro st st' h
    unfold foldScan at h
    cases hsl : scanLine st l with
    | error e => rw [hsl] at h; cases h
    | ok st2 =>
      rw [hsl] at h
      obtain ⟨h1, h2, h3, h4⟩ := ih st2 st' h
      obtain ⟨g1, g2, g3, g4⟩ := scanLine_ok_spec hsl
      refine ⟨?_, ?_, ?_, ?_⟩
      · rw [h1, g1, List.filterMap_cons]
        cases lparFilter l <;> simp
      · rw [h2, g2, List.filterMap_cons]
        cases procFilter l <;> simp
      · rw [h3, g3, List.filterMap_cons]
        cases memFilter l <;> simp
      · rw [h4, g4, List.any_cons]
        cases c : isAixSig l <;> cases c2 : ls.any isAixSig <;> simp [c, c2]

lemma scanAll_spec {lines : List String} {st : ScanState} (h : scanAll lines = .ok st) :
    st.lparData = collectLpar lines ∧ st.procData = collectProc lines ∧
    st.memData = collectMem lines ∧ st.osType = osFlavorOf lines := by
  obtain ⟨h1, h2, h3, h4⟩ := foldScan_ok_spec lines initState st h
  refine ⟨?_, ?_, ?_, ?_⟩
  · simpa [initState, collectLpar] using h1
  · simpa [initState, collectProc] using h2
  · simpa [initState, collectMem] using h3
  · rw [h4]
    unfold osFlavorOf
    cases lines.any isAixSig <;> simp [initState]

/-! ### Helper lemmas: the pipeline -/

lemma buildResult_ok {st : ScanState} {r : FileResult} (h : buildResult st = .ok r) :
    st.lparData ≠ [] ∧ ∃ rq pc, rqEOf st = .ok rq ∧ cpuEOf st = .ok pc ∧
      r = mkResult st rq pc := by
  unfold buildResult at h
  by_cases hl : st.lparData = []
  · rw [if_pos hl] at h; cases h
  · rw [if_neg hl] at h
    refine ⟨hl, ?_⟩
    cases hrq : rqEOf st with
    | error e => cases hcpu : cpuEOf st <;> rw [hrq, hcpu] at h <;> cases h
    | ok rq =>
      cases hcpu : cpuEOf st with
      | error e => rw [hrq, hcpu] at h; cases h
      | ok pc =>
        rw [hrq, hcpu] at h
        cases h
        exact ⟨rq, pc, rfl, rfl, rfl⟩

lemma process_ok {lines : List String} {r : FileResult}
    (h : process_nmon_file lines = some r) :
    ∃ st, scanAll lines = .ok st ∧ buildResult st = .ok r := by
  unfold process_nmon_file process_nmon_fileE at h
  cases hs : scanAll lines with
  | error e => rw [hs] at h; cases e; simp at h
  | ok st =>
    rw [hs] at h
    exact ⟨st, rfl, exOpt_eq_some.mp (by simpa using h)⟩

/-! ### Helper lemmas: the DataFrame column model -/

lemma length_le_maxLen :
    ∀ {rows : List (List String)} {r : List String}, r ∈ rows → r.length ≤ maxLen rows := by
  intro rows
  induction rows with
  | nil => intro r h; cases h
  | cons x xs ih =>
    intro r h
    rcases List.mem_cons.mp h with rfl | h2
    · exact le_max_left _ _
    · exact le_trans (ih h2) (le_max_right _ _)

lemma maxLen_le {rows : List (List String)} {k : Nat} (h : ∀ r ∈ rows, r.length ≤ k) :
    maxLen rows ≤ k := by
  induction rows with
  | nil => exact Nat.zero_le k
  | cons x xs ih =>
    exact max_le (h x (by simp)) (ih fun r hr => h r (by simp [hr]))

lemma colE_ok {rows : List (List String)} {j : Nat} (h : ∃ r ∈ rows, j < r.length) :
    colE rows j = .ok (rows.map (fun r => r.get? j)) := by
  obtain ⟨r, hr, hlt⟩ := h
  exact if_pos (lt_of_lt_of_le hlt (length_le_maxLen hr))

lemma colE_err {rows : List (List String)} {j : Nat} (h : maxLen rows ≤ j) :
    colE rows j = .error () := if_neg (by omega)

lemma astype_ok_of_parses {rows : List (List String)} {j : Nat}
    (h : ∀ r ∈ rows, ∃ s q, r.get? j = some s ∧ parseFloat s = .ok q) :
    ∃ v, astypeFloat (rows.map (fun r => r.get? j)) = .ok v := by
  induction rows with
  | nil => exact ⟨[], rfl⟩
  | cons x xs ih =>
    obtain ⟨s, q, hs, hq⟩ := h x (by simp)
    obtain ⟨v, hv⟩ := ih fun r hr => h r (by simp [hr])
    refine ⟨some q :: v, ?_⟩
    simp only [List.map_cons, hs, astypeFloat, hq, hv]
    rfl

lemma astype_map_some {cells : List (Option String)} {qs : List ℚ}
    (h : List.Forall₂ (fun c q => ∃ s, c = some s ∧ parseFloat s = .ok q) cells qs) :
    astypeFloat cells = .ok (qs.map some) := by
  induction h with
  | nil => rfl
  | @cons c q cs' qs' hcq _ ih =>
    obtain ⟨s, hc, hq⟩ := hcq
    subst hc
    simp only [astypeFloat, hq, ih]
    rfl

lemma zipSub_map_some (a b : List ℚ) :
    zipSub (a.map some) (b.map some) = (List.zipWith (fun x y => x - y) a b).map some := by
  induction a generalizing b with
  | nil => simp [zipSub]
  | cons x xs ih =>
    cases b with
    | nil => simp [zipSub]
    | cons y ys => simpa [zipSub] using ih ys

@[simp] lemma presentVals_map_some (l : List ℚ) : presentVals (l.map some) = l := by
  induction l with
  | nil => rfl
  | cons x xs ih => simp [presentVals, List.filterMap_cons]

lemma nanmin_map_some (l : List ℚ) : nanmin (l.map some) = listMin l := by
  simp [nanmin]

lemma nanmax_map_some (l : List ℚ) : nanmax (l.map some) = listMax l := by
  simp [nanmax]

lemma nansum_map_some (l : List ℚ) : nansum (l.map some) = listSum l := by
  simp [nansum]

lemma nanmean_map_some {l : List ℚ} (h : l ≠ []) :
    nanmean (l.map some) = listSum l / (l.length : ℚ) := by
  have hlen : l.length ≠ 0 := by simpa [List.length_eq_zero] using h
  simp [nanmean, hlen]

lemma nanquantile95_map_some (l : List ℚ) : nanquantile95 (l.map some) = quantile95 l := by
  simp [nanquantile95]

/-! ### Helper lemmas: percentile interpolation -/

lemma quantile_core (s : List ℚ) (r : ℚ) (h0 : 0 ≤ r) (hub : r ≤ (s.length : ℚ) - 1) :
    s.getD ((⌊r⌋).toNat) 0 + (r - (((⌊r⌋).toNat : ℕ) : ℚ)) *
      (s.getD ((⌊r⌋).toNat + 1) (s.getD ((⌊r⌋).toNat) 0) - s.getD ((⌊r⌋).toNat) 0) =
    s.getD ((⌊r⌋).toNat) 0 + (r - (((⌊r⌋).toNat : ℕ) : ℚ)) *
      (s.getD ((⌈r⌉).toNat) 0 - s.getD ((⌊r⌋).toNat) 0) := by
  by_cases hint : (⌊r⌋ : ℚ) = r
  · have hiq : (((⌊r⌋).toNat : ℕ) : ℚ) = r := by
      rw [← hint]
      exact_mod_cast congrArg (Int.cast : ℤ → ℚ)
        (Int.toNat_of_nonneg (Int.floor_nonneg.mpr h0))
    rw [hiq, sub_self]
    ring
  · have hfl0 : (0 : ℤ) ≤ ⌊r⌋ := Int.floor_nonneg.mpr h0
    have hlt : (⌊r⌋ : ℚ) < r := lt_of_le_of_ne (Int.floor_le r) hint
    have hceil : ⌈r⌉ = ⌊r⌋ + 1 := by
      rw [Int.ceil_eq_iff]
      refine ⟨by push_cast; linarith, by push_cast; linarith [Int.lt_floor_add_one r]⟩
    have hceil_le : ⌈r⌉ ≤ (s.length : ℤ) - 1 := by
      rw [Int.ceil_le]
      push_cast
      exact hub
    have hi1 : (⌊r⌋).toNat + 1 < s.length := by omega
    have hjt : (⌈r⌉).toNat = (⌊r⌋).toNat + 1 := by omega
    rw [hjt]
    have hg : s.getD ((⌊r⌋).toNat + 1) (s.getD ((⌊r⌋).toNat) 0) =
        s.getD ((⌊r⌋).toNat + 1) 0 := by
      simp only [List.getD_eq_getElem?_getD]
      cases hget : s[(⌊r⌋).toNat + 1]? with
      | none =>
        have := List.getElem?_eq_none_iff.mp hget
        omega
      | some v => rfl
    rw [hg]

lemma quantile_eq_spec : ∀ xs : List ℚ, xs ≠ [] → quantile95 xs = specQuantile95 xs := by
  intro xs hne
  have hn : (sortQ xs).length ≠ 0 := by
    unfold sortQ
    rw [List.length_insertionSort]
    exact fun h => hne (List.length_eq_zero.mp h)
  have h1n : 1 ≤ (sortQ xs).length := Nat.one_le_iff_ne_zero.mpr hn
  have h1q : (1 : ℚ) ≤ (((sortQ xs).length : ℕ) : ℚ) := by exact_mod_cast h1n
  simp only [quantile95, specQuantile95]
  rw [if_neg hn, if_neg hn]
  exact quantile_core (sortQ xs) _ (by linarith) (by linarith)

/-! ### Helper lemmas: the memory reducer -/

lemma bind_pyFloat_some {c : Option String} {q : ℚ} (h : c.bind pyFloat? = some q) :
    ∃ s, c = some s ∧ parseFloat s = .ok q := by
  cases c with
  | none => cases h
  | some s =>
    refine ⟨s, rfl, ?_⟩
    rw [Option.some_bind] at h
    unfold pyFloat? at h
    cases hp : parseFloat s with
    | error e => rw [hp] at h; cases h
    | ok q2 => rw [hp] at h; cases h; rfl

lemma specUsedList_length :
    ∀ {rows : List (List String)} {ot : OsFlavor} {used : List ℚ},
      specUsedList rows ot = some used → used.length = rows.length := by
  intro rows
  induction rows with
  | nil => intro ot used h; cases h; rfl
  | cons r rs ih =>
    intro ot used h
    unfold specUsedList at h
    cases hu : specUsed ot r with
    | none => rw [hu] at h; cases h
    | some u =>
      cases hus : specUsedList rs ot with
      | none => rw [hu, hus] at h; cases h
      | some us =>
        rw [hu, hus] at h
        cases h
        simpa using ih hus

lemma astype_pair_of_specUsed :
    ∀ (rows : List (List String)) (ot : OsFlavor) (used : List ℚ),
      specUsedList rows ot = some used →
      ∃ a b : List ℚ,
        astypeFloat (rows.map (fun r => r.get? (memCols ot).1)) = .ok (a.map some) ∧
        astypeFloat (rows.map (fun r => r.get? (memCols ot).2)) = .ok (b.map some) ∧
        List.zipWith (fun x y => x - y) a b = used := by
  intro rows
  induction rows with
  | nil =>
    intro ot used h
    cases h
    exact ⟨[], [], rfl, rfl, rfl⟩
  | cons r rs ih =>
    intro ot used h
    unfold specUsedList at h
    cases hu : specUsed ot r with
    | none => rw [hu] at h; cases h
    | some u =>
      cases hus : specUsedList rs ot with
      | none => rw [hu, hus] at h; cases h
      | some us =>
        rw [hu, hus] at h
        cases h
        obtain ⟨a, b, ha, hb, hz⟩ := ih ot us hus
        simp only [specUsed] at hu
        cases hga : (r.get? (memCols ot).1).bind pyFloat? with
        | none =>
          cases hgb : (r.get? (memCols ot).2).bind pyFloat? with
          | none => rw [hga, hgb] at hu; cases hu
          | some b0 => rw [hga, hgb] at hu; cases hu
        | some a0 =>
          cases hgb : (r.get? (memCols ot).2).bind pyFloat? with
          | none => rw [hga, hgb] at hu; cases hu
          | some b0 =>
            rw [hga, hgb] at hu
            cases hu
            obtain ⟨sa, hsa, hpa⟩ := bind_pyFloat_some hga
            obtain ⟨sb, hsb, hpb⟩ := bind_pyFloat_some hgb
            refine ⟨a0 :: a, b0 :: b, ?_, ?_, ?_⟩
            · simp only [List.map_cons, hsa, astypeFloat, hpa, ha]
              rfl
            · simp only [List.map_cons, hsb, astypeFloat, hpb, hb]
              rfl
            · simp [hz]

/-! ### Helper lemmas: the header extractor -/

lemma parse_error_iff (line : String) (si : SystemInfo) :
    parse_system_info line si = .error () ↔ malformedHeader line = true := by
  unfold parse_system_info malformedHeader
  by_cases c1 : containsS "AAA,date" line
  · simp only [c1, if_true]
    cases hg : (pySplit ',' line).get? 2 with
    | none =>
      have hlen := List.get?_eq_none.mp hg
      simp [hlen]
    | some f =>
      obtain ⟨h2, _⟩ := List.get?_eq_some.mp hg
      simp [show ¬((pySplit ',' line).length ≤ 2) from by omega]
  · simp only [c1, if_false, Bool.false_eq_true]
    by_cases c2 : containsS "lparname" line
    · simp only [c2, if_true]
      cases hg : (pySplit ',' line).get? 3 with
      | none =>
        have hlen := List.get?_eq_none.mp hg
        simp [hlen]
      | some f =>
        obtain ⟨h2, _⟩ := List.get?_eq_some.mp hg
        simp [show ¬((pySplit ',' line).length ≤ 3) from by omega]
    · simp only [c2, if_false, Bool.false_eq_true]
      by_cases c3 : containsS "System Model:" line
      · simp only [c3, if_true]
        cases hg : (pySplit ',' (stripQuotes (pyStrip (lastSeg ':' line)))).get? 1 with
        | none =>
          have hlen := List.get?_eq_none.mp hg
          simp [hlen]
        | some f =>
          obtain ⟨h2, _⟩ := List.get?_eq_some.mp hg
          simp [show ¬((pySplit ',' (stripQuotes (pyStrip (lastSeg ':' line)))).length ≤ 1)
            from by omega]
      · simp only [c3, if_false, Bool.false_eq_true]
        by_cases c4 : containsS "Machine Serial Number:" line
        · simp [c4]
        · simp only [c4, if_false, Bool.false_eq_true]
          by_cases c5 : containsS "Processor Type:" line
          · simp only [c5, if_true]
            cases hg : (pySplit '_' (stripQuotes (pyStrip (lastSeg ':' line)))).get? 1 with
            | none =>
              have hlen := List.get?_eq_none.mp hg
              simp [hlen]
            | some f =>
              obtain ⟨h2, _⟩ := List.get?_eq_some.mp hg
              simp [show ¬((pySplit '_' (stripQuotes (pyStrip (lastSeg ':' line)))).length ≤ 1)
                from by omega]
          · simp [c5]

lemma parse_ok_of_noMarker (line : String) (si : SystemInfo) (h : noMarker line = true) :
    parse_system_info line si = .ok si := by
  unfold noMarker at h
  simp only [Bool.not_eq_eq_eq_not, Bool.not_true, Bool.or_eq_false_iff] at h
  obtain ⟨⟨⟨⟨h1, h2⟩, h3⟩, h4⟩, h5⟩ := h
  unfold parse_system_info
  simp [h1, h2, h3, h4, h5]

/-! ### Helper lemmas: failure propagation in the pipeline -/

lemma process_none_of_scan_err {lines : List String} {e : Unit}
    (hs : scanAll lines = .error e) : process_nmon_file lines = none := by
  unfold process_nmon_file process_nmon_fileE
  rw [hs]
  cases e
  rfl

lemma process_none_of_rq_err {lines : List String} {st : ScanState}
    (hs : scanAll lines = .ok st) (hrq : rqEOf st = .error ()) :
    process_nmon_file lines = none := by
  cases hpr : process_nmon_file lines with
  | none => rfl
  | some r =>
    obtain ⟨st2, hs2, hb⟩ := process_ok hpr
    rw [hs] at hs2
    cases hs2
    obtain ⟨_, rq, pc, hrq2, _, _⟩ := buildResult_ok hb
    rw [hrq] at hrq2
    cases hrq2

lemma process_none_of_cpu_err {lines : List String} {st : ScanState}
    (hs : scanAll lines = .ok st) (hcpu : cpuEOf st = .error ()) :
    process_nmon_file lines = none := by
  cases hpr : process_nmon_file lines with
  | none => rfl
  | some r =>
    obtain ⟨st2, hs2, hb⟩ := process_ok hpr
    rw [hs] at hs2
    cases hs2
    obtain ⟨_, rq, pc, _, hcpu2, _⟩ := buildResult_ok hb
    rw [hcpu] at hcpu2
    cases hcpu2

/-! ### Helper lemmas: the batch loop -/

lemma allResultsAux_spec :
    ∀ (fs : List (String × List String)) (acc : List (String × FileResult)),
      allResultsAux acc fs = acc ++ fs.filterMap rowSelect := by
  intro fs
  induction fs with
  | nil => intro acc; simp [allResultsAux]
  | cons f fs2 ih =>
    intro acc
    unfold allResultsAux
    rw [ih]
    by_cases he : pyEndsWith ".nmon" f.1
    · cases hp : process_nmon_file f.2 with
      | none => simp [he, hp, rowSelect, List.filterMap_cons]
      | some r => simp [he, hp, rowSelect, List.filterMap_cons]
    · simp [he, rowSelect, List.filterMap_cons]

lemma specUsedList_cons {r : List String} {rs : List (List String)} {ot : OsFlavor}
    {used : List ℚ} (h : specUsedList (r :: rs) ot = some used) :
    ∃ u us, specUsed ot r = some u ∧ specUsedList rs ot = some us ∧ used = u :: us := by
  unfold specUsedList at h
  cases hu : specUsed ot r with
  | none =>
    cases hus : specUsedList rs ot <;> rw [hu, hus] at h <;> cases h
  | some u =>
    cases hus : specUsedList rs ot with
    | none => rw [hu, hus] at h; cases h
    | some us =>
      rw [hu, hus] at h
      cases h
      exact ⟨u, us, rfl, rfl, rfl⟩

lemma specUsed_cells {ot : OsFlavor} {r : List String} {u : ℚ}
    (h : specUsed ot r = some u) :
    (∃ s, r.get? (memCols ot).1 = some s) ∧ (∃ s, r.get? (memCols ot).2 = some s) := by
  simp only [specUsed] at h
  cases hga : (r.get? (memCols ot).1).bind pyFloat? with
  | none =>
    cases hgb : (r.get? (memCols ot).2).bind pyFloat? <;> rw [hga, hgb] at h <;> cases h
  | some a0 =>
    cases hgb : (r.get? (memCols ot).2).bind pyFloat? with
    | none => rw [hga, hgb] at h; cases h
    | some b0 =>
      obtain ⟨sa, hsa, _⟩ := bind_pyFloat_some hga
      obtain ⟨sb, hsb, _⟩ := bind_pyFloat_some hgb
      exact ⟨⟨sa, hsa⟩, ⟨sb, hsb⟩⟩

lemma mem_metrics_of_specUsed {rows : List (List String)} {ot : OsFlavor} {used : List ℚ}
    (h : specUsedList rows ot = some used) (hne : rows ≠ []) :
    calculate_memory_metrics rows ot =
      ⟨(rows.length : ℚ), listMin used / 1024, listSum used / (rows.length : ℚ) / 1024,
       listMax used / 1024, quantile95 used / 1024⟩ := by
  obtain ⟨a, b, ha, hb, hz⟩ := astype_pair_of_specUsed rows ot used h
  have hlen := specUsedList_length h
  obtain ⟨r0, rs0, rfl⟩ : ∃ r0 rs0, rows = r0 :: rs0 := by
    cases rows with
    | nil => cases hne rfl
    | cons x xs => exact ⟨x, xs, rfl⟩
  obtain ⟨u0, us0, hu0, _, hform⟩ := specUsedList_cons h
  obtain ⟨⟨sa, hsa⟩, ⟨sb, hsb⟩⟩ := specUsed_cells hu0
  have hca : colE (r0 :: rs0) (memCols ot).1 =
      .ok ((r0 :: rs0).map fun r => r.get? (memCols ot).1) :=
    colE_ok ⟨r0, by simp, (List.get?_eq_some.mp hsa).1⟩
  have hcb : colE (r0 :: rs0) (memCols ot).2 =
      .ok ((r0 :: rs0).map fun r => r.get? (memCols ot).2) :=
    colE_ok ⟨r0, by simp, (List.get?_eq_some.mp hsb).1⟩
  have hune : used ≠ [] := by rw [hform]; simp
  unfold calculate_memory_metrics memMetricsE
  simp only [hca, hcb, ha, hb, ok_bind]
  rw [zipSub_map_some, hz]
  rw [nanmin_map_some, nanmax_map_some, nanquantile95_map_some, nanmean_map_some hune,
      hlen]

/-! ## Claim theorems -/

/-- C1: for every input file, if an AIX signature line appears anywhere, the
AIX column offsets are used to reduce ALL of the LPAR records of the file,
including LPAR lines before the signature; the per-file OS flavor defaults
to Linux and is flipped to AIX by the signature regardless of its position.
The second conjunct of the scan part states the flavor is AIX exactly when a
signature line occurs anywhere; `collectLpar` is position-independent, and
the metrics of a produced result are the AIX reduction of that full
collection. -/
theorem C1_aix_flag_position_independent :
    ∀ lines : List String,
      (∀ st, scanAll lines = .ok st →
        st.lparData = collectLpar lines ∧
        (st.osType = OsFlavor.AIX ↔ lines.any isAixSig = true)) ∧
      (lines.any isAixSig = true →
        ∀ r, process_nmon_file lines = some r →
          r.metrics = calculate_aix_metrics (collectLpar lines)) := by
  intro lines
  constructor
  · intro st hst
    obtain ⟨h1, _, _, h4⟩ := scanAll_spec hst
    refine ⟨h1, ?_⟩
    rw [h4]
    unfold osFlavorOf
    cases h : lines.any isAixSig <;> simp [h]
  · intro hany r hpr
    obtain ⟨st, hs, hb⟩ := process_ok hpr
    obtain ⟨hlp, _, _, hos⟩ := scanAll_spec hs
    obtain ⟨hne, rq, pc, hrq, hcpu, hr⟩ := buildResult_ok hb
    subst hr
    have hAIX : st.osType = OsFlavor.AIX := by
      rw [hos]
      unfold osFlavorOf
      rw [if_pos hany]
    simp [mkResult, hAIX, hlp]

/-- Witness for C1: a file whose LPAR line comes BEFORE the AIX signature
line still gets the AIX reduction over its full LPAR collection. -/
theorem C1_witness :
    ([demoLparLine, "AAA,AIX"] : List String).any isAixSig = true ∧
    (process_nmon_file [demoLparLine, "AAA,AIX"]).isSome = true ∧
    (∀ r, process_nmon_file [demoLparLine, "AAA,AIX"] = some r →
      r.metrics = calculate_aix_metrics (collectLpar [demoLparLine, "AAA,AIX"])) :=
  ⟨by decide, by decide,
   (C1_aix_flag_position_independent [demoLparLine, "AAA,AIX"]).2 (by decide)⟩

/-- C2 counterexample: the claim asserts that a non-numeric value in the
run-queue column (PROC field index 2) does not cause the whole file to be
skipped.  On this file the LPAR collection is non-empty and the PROC
collection is retained, yet the pipeline returns `None`: the float
conversion of the run-queue column raises outside any reducer-local handler
and is only caught at the pipeline boundary, skipping the file. -/
theorem C2_counterexample :
    process_nmon_file demoProcBad = none ∧
    collectLpar demoProcBad ≠ [] ∧ collectProc demoProcBad ≠ [] ∧
    parseFloat "abc" = .error () :=
  ⟨by decide, by decide, by decide, by decide⟩

/-- C2 (amended): conversion failures inside the three reducer functions
(AIX LPAR, Linux LPAR, memory) are caught locally and produce zero tuples,
and processing continues; but the run-queue and CPU-percentile computations
run inline in the file pipeline with no local handler, so a conversion
failure there is caught only at the pipeline boundary and the whole file is
skipped (no FileResult). -/
theorem C2_amended_reducers_local_percentiles_fatal :
    (∀ rows, aixMetricsE rows = .error () → calculate_aix_metrics rows = zeroMetrics) ∧
    (∀ rows, linuxMetricsE rows = .error () → calculate_linux_metrics rows = zeroMetrics) ∧
    (∀ rows ot, memMetricsE rows ot = .error () →
      calculate_memory_metrics rows ot = zeroMem) ∧
    (∀ (lines : List String) (st : ScanState), scanAll lines = .ok st →
      rqEOf st = .error () → process_nmon_file lines = none) ∧
    (∀ (lines : List String) (st : ScanState), scanAll lines = .ok st →
      cpuEOf st = .error () → process_nmon_file lines = none) := by
  refine ⟨?_, ?_, ?_, ?_, ?_⟩
  · intro rows h; simp [calculate_aix_metrics, h]
  · intro rows h; simp [calculate_linux_metrics, h]
  · intro rows ot h; simp [calculate_memory_metrics, h]
  · intro lines st hs h; exact process_none_of_rq_err hs h
  · intro lines st hs h; exact process_none_of_cpu_err hs h

/-- Witness for the amended C2: a memory reducer failure degrades to zeros,
while a run-queue conversion failure kills the whole file. -/
theorem C2_witness :
    calculate_memory_metrics [["MEM", "T0001", "x"]] OsFlavor.AIX = zeroMem ∧
    scanAll demoProcBad = .ok demoProcBadState ∧
    rqEOf demoProcBadState = .error () ∧
    process_nmon_file demoProcBad = none :=
  ⟨C2_amended_reducers_local_percentiles_fatal.2.2.1 _ OsFlavor.AIX (by decide),
   by decide, by decide,
   C2_amended_reducers_local_percentiles_fatal.2.2.2.1 demoProcBad demoProcBadState
     (by decide) (by decide)⟩

/-- C3: the 95th-percentile computation (shared by the CPU, run-queue and
memory reduction call sites through `quantile95` and `nanquantile95`) equals
the standard linear-interpolation definition `specQuantile95` (sort, rank
r = 0.95 * (n - 1), interpolate between floor(r) and ceil(r) by the
fractional part); for CPU samples [10, 20, 30, 40, 50] it yields 48. -/
theorem C3_percentile_is_linear_interpolation :
    (∀ xs : List ℚ, xs ≠ [] → quantile95 xs = specQuantile95 xs) ∧
    quantile95 [10, 20, 30, 40, 50] = 48 :=
  ⟨quantile_eq_spec, by decide⟩

/-- Witness for C3 at the sample list of the claim. -/
theorem C3_witness :
    ([10, 20, 30, 40, 50] : List ℚ) ≠ [] ∧
    quantile95 [10, 20, 30, 40, 50] = specQuantile95 [10, 20, 30, 40, 50] :=
  ⟨by decide, C3_percentile_is_linear_interpolation.1 _ (by decide)⟩

/-- C4 counterexample: the claim asserts a malformed header line (for
example one containing the `lparname` marker with fewer than 4
comma-separated fields) leaves the field unset rather than aborting the
file.  In fact `parse_system_info` raises an IndexError on the bare line
"lparname", and a file containing it is aborted (returns `None`) even
though its LPAR collection is non-empty. -/
theorem C4_counterexample :
    parse_system_info "lparname" emptySystemInfo = .error () ∧
    process_nmon_file [demoLparLine, "lparname"] = none ∧
    collectLpar [demoLparLine, "lparname"] ≠ [] :=
  ⟨by decide, by decide, by decide⟩

/-- C4 (amended): lines matching no header marker never raise and leave the
SystemInfo fields unchanged (later defaulted to "N/A"); `parse_system_info`
raises exactly on malformed marker lines as characterized by
`malformedHeader` (AAA,date with fewer than 3 comma fields, lparname with
fewer than 4, System Model: with fewer than 2 comma segments after the last
colon, Processor Type: with fewer than 2 underscore segments); such an
exception aborts the whole file at the pipeline boundary. -/
theorem C4_amended_malformed_markers_raise :
    (∀ (line : String) (si : SystemInfo), noMarker line = true →
      parse_system_info line si = .ok si) ∧
    (∀ (line : String) (si : SystemInfo),
      parse_system_info line si = .error () ↔ malformedHeader line = true) ∧
    (∀ (lines : List String) (e : Unit), scanAll lines = .error e →
      process_nmon_file lines = none) := by
  refine ⟨parse_ok_of_noMarker, parse_error_iff, ?_⟩
  intro lines e h
  exact process_none_of_scan_err h

/-- Witness for the amended C4: a marker-free line passes through unchanged
and the bare "lparname" line is exactly a malformed header. -/
theorem C4_witness :
    noMarker "ZZZZ,data line" = true ∧
    parse_system_info "ZZZZ,data line" emptySystemInfo = .ok emptySystemInfo ∧
    (parse_system_info "lparname" emptySystemInfo = .error () ↔
      malformedHeader "lparname" = true) ∧
    malformedHeader "lparname" = true :=
  ⟨by decide,
   C4_amended_malformed_markers_raise.1 _ emptySystemInfo (by decide),
   C4_amended_malformed_markers_raise.2.1 "lparname" emptySystemInfo,
   by decide⟩

/-- C5: every output row has exactly 25 cells and the header list has
exactly 25 entries in the claimed order; but entry 21 is spelled
"Mim MEM Used" in the source where the claim (and the spec) say
"Min MEM Used" — the lists agree everywhere else.  This theorem documents
the divergence of the code from the claim. -/
theorem C5_output_columns :
    columns.length = 25 ∧ specColumns.length = 25 ∧
    columns.get? 21 = some "Mim MEM Used" ∧
    specColumns.get? 21 = some "Min MEM Used" ∧
    columns ≠ specColumns ∧
    columns.take 21 = specColumns.take 21 ∧
    columns.drop 22 = specColumns.drop 22 ∧
    ∀ (name : String) (r : FileResult), (rowOf name r).length = 25 := by
  refine ⟨by decide, by decide, by decide, by decide, by decide, by decide, by decide, ?_⟩
  intro name r
  rfl

/-- C6: both LPAR reducers always return exactly 12 numeric values (enforced
by the `MetricTuple` type), the result is the 12-tuple of zeros whenever the
computation raises (in particular on empty input), and a successful
computation is returned unchanged — no error propagates to the caller. -/
theorem C6_reducers_always_12_zero_on_error :
    (∀ rows, aixMetricsE rows = .error () → calculate_aix_metrics rows = zeroMetrics) ∧
    (∀ rows, linuxMetricsE rows = .error () → calculate_linux_metrics rows = zeroMetrics) ∧
    aixMetricsE [] = .error () ∧ linuxMetricsE [] = .error () ∧
    (∀ rows t, aixMetricsE rows = .ok t → calculate_aix_metrics rows = t) ∧
    (∀ rows t, linuxMetricsE rows = .ok t → calculate_linux_metrics rows = t) := by
  refine ⟨?_, ?_, by decide, by decide, ?_, ?_⟩
  · intro rows h; simp [calculate_aix_metrics, h]
  · intro rows h; simp [calculate_linux_metrics, h]
  · intro rows t h; simp [calculate_aix_metrics, h]
  · intro rows t h; simp [calculate_linux_metrics, h]

/-- Witness for C6: zero tuples on empty input and on a malformed row. -/
theorem C6_witness :
    calculate_aix_metrics [] = zeroMetrics ∧
    calculate_linux_metrics [] = zeroMetrics ∧
    calculate_aix_metrics [["LPAR", "T0001", "bad"]] = zeroMetrics :=
  ⟨C6_reducers_always_12_zero_on_error.1 [] (by decide),
   C6_reducers_always_12_zero_on_error.2.1 [] (by decide),
   C6_reducers_always_12_zero_on_error.1 [["LPAR", "T0001", "bad"]] (by decide)⟩

/-- C7: whenever every MEM sample has the two OS-dependent columns present
and numeric (`specUsedList` is defined: AIX col6 minus col4, Linux col2
minus col7), the memory reducer reports the sample count and min / mean /
max / 95th percentile of the used series, each divided by 1024; in
particular three samples with used = 2048 are reported as 2.0 GB each. -/
theorem C7_memory_used_formula :
    (∀ (rows : List (List String)) (ot : OsFlavor) (used : List ℚ),
      specUsedList rows ot = some used → rows ≠ [] →
      calculate_memory_metrics rows ot =
        ⟨(rows.length : ℚ), listMin used / 1024, listSum used / (rows.length : ℚ) / 1024,
         listMax used / 1024, quantile95 used / 1024⟩) ∧
    calculate_memory_metrics demoMemRows OsFlavor.AIX = ⟨3, 2, 2, 2, 2⟩ := by
  refine ⟨?_, by decide⟩
  intro rows ot used h hne
  exact mem_metrics_of_specUsed h hne

/-- Witness for C7 at the three 2048-used samples. -/
theorem C7_witness :
    specUsedList demoMemRows OsFlavor.AIX = some [2048, 2048, 2048] ∧
    demoMemRows ≠ [] ∧
    calculate_memory_metrics demoMemRows OsFlavor.AIX =
      ⟨(demoMemRows.length : ℚ), listMin [2048, 2048, 2048] / 1024,
       listSum [2048, 2048, 2048] / (demoMemRows.length : ℚ) / 1024,
       listMax [2048, 2048, 2048] / 1024, quantile95 [2048, 2048, 2048] / 1024⟩ :=
  ⟨by decide, by decide,
   C7_memory_used_formula.1 demoMemRows OsFlavor.AIX _ (by decide) (by decide)⟩

/-- C8: a file whose LPAR collection is empty after structural filtering
produces no FileResult, and the output table rows are exactly the files
with a result (so such a file contributes no row). -/
theorem C8_empty_lpar_no_row :
    (∀ lines : List String, collectLpar lines = [] → process_nmon_file lines = none) ∧
    (∀ files : List (String × List String),
      all_results files = files.filterMap rowSelect) := by
  constructor
  · intro lines h
    cases hpr : process_nmon_file lines with
    | none => rfl
    | some r =>
      obtain ⟨st, hs, hb⟩ := process_ok hpr
      obtain ⟨hlp, _, _, _⟩ := scanAll_spec hs
      obtain ⟨hne, _⟩ := buildResult_ok hb
      exact absurd (hlp.trans h) hne
  · intro files
    simpa [all_results] using allResultsAux_spec files []

/-- Witness for C8 at a file with PROC data but no LPAR data. -/
theorem C8_witness :
    collectLpar ["PROC,T0001,5"] = [] ∧
    process_nmon_file ["PROC,T0001,5"] = none :=
  ⟨by decide, C8_empty_lpar_no_row.1 _ (by decide)⟩

/-- C9: when the PROC collection of a file is empty, the run-queue entry of
its FileResult is the NaN sentinel (`none`), never the number zero, so an
absent measurement is distinguishable from a true-zero measurement. -/
theorem C9_empty_proc_rq_is_nan :
    ∀ lines : List String, collectProc lines = [] →
      ∀ r, process_nmon_file lines = some r → r.rq = none ∧ r.rq ≠ some 0 := by
  intro lines h r hpr
  obtain ⟨st, hs, hb⟩ := process_ok hpr
  obtain ⟨_, hpp, _, _⟩ := scanAll_spec hs
  obtain ⟨_, rq, pc, hrq, _, hr⟩ := buildResult_ok hb
  subst hr
  have hpe : st.procData = [] := hpp.trans h
  unfold rqEOf at hrq
  rw [if_pos hpe] at hrq
  cases hrq
  exact ⟨rfl, by simp [mkResult]⟩

/-- Witness for C9: a file with an LPAR line and no PROC line produces a
result whose run-queue entry is the NaN sentinel. -/
theorem C9_witness :
    collectProc [demoLparLine] = [] ∧
    (process_nmon_file [demoLparLine]).isSome = true ∧
    (∀ r, process_nmon_file [demoLparLine] = some r → r.rq = none ∧ r.rq ≠ some 0) :=
  ⟨by decide, by decide,
   fun r hr => C9_empty_proc_rq_is_nan [demoLparLine] (by decide) r hr⟩

/-- C10: for a Linux-flavored LPAR collection in which no retained record
has at least 22 fields, the Linux reducer raises on its column-21 access
and returns the 12-tuple of zeros, even when the first 14 columns of every
record are numerically well-formed. -/
theorem C10_linux_reducer_zeros_without_col21 :
    ∀ rows : List (List String), rows ≠ [] →
      (∀ r ∈ rows, 14 ≤ r.length ∧ r.length < 22 ∧
        ∀ s ∈ r.take 14, (parseFloat s).isOk = true) →
      calculate_linux_metrics rows = zeroMetrics := by
  intro rows hne hwf
  have hz : linuxMetricsE rows = .error () := by
    obtain ⟨r0, hr0⟩ := List.exists_mem_of_ne_nil rows hne
    have h14 : ∀ r ∈ rows, 14 ≤ r.length := fun r hr => (hwf r hr).1
    have hcols : ∀ j, j < 14 → colE rows j = .ok (rows.map fun r => r.get? j) :=
      fun j hj => colE_ok ⟨r0, hr0, lt_of_lt_of_le hj (h14 r0 hr0)⟩
    have hast : ∀ j, j < 14 → ∃ v, astypeFloat (rows.map fun r => r.get? j) = .ok v := by
      intro j hj
      apply astype_ok_of_parses
      intro r hr
      have hjr : j < r.length := lt_of_lt_of_le hj (h14 r hr)
      obtain ⟨s, hs⟩ : ∃ s, r.get? j = some s := by
        cases hg : r.get? j with
        | none =>
          have := List.get?_eq_none.mp hg
          omega
        | some s => exact ⟨s, rfl⟩
      have htake : (r.take 14).get? j = some s := by
        rw [List.get?_eq_getElem?, List.getElem?_take_of_lt hj, ← List.get?_eq_getElem?]
        exact hs
      have hmem : s ∈ r.take 14 := List.get?_mem htake
      have hok := (hwf r hr).2.2 s hmem
      cases hp : parseFloat s with
      | error e => rw [hp] at hok; cases hok
      | ok q => exact ⟨s, q, hs, hp⟩
    obtain ⟨v2, hv2⟩ := hast 2 (by omega)
    obtain ⟨v13, hv13⟩ := hast 13 (by omega)
    obtain ⟨v10, hv10⟩ := hast 10 (by omega)
    obtain ⟨v8, hv8⟩ := hast 8 (by omega)
    have hc21 : colE rows 21 = .error () :=
      colE_err (maxLen_le fun r hr => by have := (hwf r hr).2.1; omega)
    unfold linuxMetricsE
    rw [hcols 2 (by omega), ok_bind, hv2, ok_bind,
        hcols 13 (by omega), ok_bind, hv13, ok_bind,
        hcols 10 (by omega), ok_bind, hv10, ok_bind,
        hcols 8 (by omega), ok_bind, hv8, ok_bind,
        hc21, err_bind]
  simp [calculate_linux_metrics, hz]

/-- Witness for C10 at a single all-numeric 14-field row. -/
theorem C10_witness :
    ([demoNumRow14] : List (List String)) ≠ [] ∧
    (∀ r ∈ [demoNumRow14], 14 ≤ r.length ∧ r.length < 22 ∧
      ∀ s ∈ r.take 14, (parseFloat s).isOk = true) ∧
    calculate_linux_metrics [demoNumRow14] = zeroMetrics :=
  ⟨by decide, by decide,
   C10_linux_reducer_zeros_without_col21 [demoNumRow14] (by decide) (by decide)⟩

end NmonSummary
